import Mathlib

/-!
Verification of the stream-processing and process-supervision engine of
`claude-remote` (`server.js`), against its natural-language specification.

The server keeps a bounded scrollback (replay) buffer, classifies PTY output
chunks, drives a debounced notifier, fans output out to socket observers,
routes observer input back to the PTY, and supervises the PTY process
(auto-restart on exit).  `server.js` is embedded shallowly below; the pure
helper modules `lib/parser.js` and `lib/notifier.js` are not part of the
sources, and are either treated parametrically (the classifier functions) or
modelled from the specification (the accumulator and notifier state),
as indicated in the doc comments.
-/

namespace ClaudeRemote

/-- JavaScript `String.prototype.slice` with a single (possibly negative)
start index: a negative start counts from the end, clamped at 0. -/
def jsSlice (s : String) (start : Int) : String :=
  let len : Int := (s.length : Int)
  let b : Int := if start < 0 then max (len + start) 0 else min start len
  ((s.toList).drop b.toNat).asString

/-- `appendToScrollback` from `server.js`:
`scrollbackBuffer += data; if (scrollbackBuffer.length > SCROLLBACK_LIMIT)
scrollbackBuffer = scrollbackBuffer.slice(-SCROLLBACK_LIMIT);`.
The limit is passed explicitly (`SCROLLBACK_LIMIT` in the source). -/
def appendToScrollback (limit : Nat) (buf : String) (data : String) : String :=
  let buf' := buf ++ data
  if buf'.length > limit then jsSlice buf' (-(limit : Int)) else buf'

/-- JavaScript `String.prototype.trim`: remove leading and trailing
whitespace. -/
def jsTrim (s : String) : String :=
  (((s.toList.dropWhile Char.isWhitespace).reverse.dropWhile
    Char.isWhitespace).reverse).asString

/-- The last `min L (length l)` elements of `l` (spec-side notion of
"suffix of length `min(L, total length)`"). -/
def lastN (L : Nat) (l : List α) : List α := l.drop (l.length - L)

/-- The suffix of `s` of length `min L (length s)`. -/
def suffixOf (L : Nat) (s : String) : String := (lastN L s.toList).asString

/-- Buffer contents after a sequence of appends starting from the empty
buffer (the initial `scrollbackBuffer = ''` of the source). -/
def scrollbackAfter (L : Nat) (chunks : List String) : String :=
  chunks.foldl (appendToScrollback L) ""

/-- The concatenation of all appended chunks. -/
def concatChunks (chunks : List String) : String :=
  chunks.foldl (· ++ ·) ""

lemma toList_append (a b : String) : (a ++ b).toList = a.toList ++ b.toList := rfl

lemma toList_asString (l : List Char) : (l.asString).toList = l := rfl

lemma asString_toList (s : String) : s.toList.asString = s := rfl

lemma length_eq_toList (s : String) : s.length = s.toList.length := rfl

lemma length_lastN (L : Nat) (l : List α) : (lastN L l).length = min L l.length := by
  simp only [lastN, List.length_drop]
  omega

lemma length_suffixOf (L : Nat) (s : String) : (suffixOf L s).length = min L s.length := by
  show (lastN L s.toList).length = min L s.length
  rw [length_lastN]
  rfl

/-- One `appendToScrollback` step computes exactly the `L`-bounded suffix of
`buf ++ data`, provided the configured limit is positive. -/
lemma appendToScrollback_eq_suffixOf (L : Nat) (hL : 0 < L) (buf data : String) :
    appendToScrollback L buf data = suffixOf L (buf ++ data) := by
  simp only [appendToScrollback, jsSlice, suffixOf, lastN, length_eq_toList]
  by_cases h : (buf ++ data).toList.length > L
  · rw [if_pos h]
    have hneg : (-(L : Int)) < 0 := by omega
    rw [if_pos hneg]
    have hle : (0 : Int) ≤ (((buf ++ data).toList.length : Nat) : Int) + -(L : Int) := by
      omega
    rw [max_eq_left hle]
    have htn : ((((buf ++ data).toList.length : Nat) : Int) + -(L : Int)).toNat =
        (buf ++ data).toList.length - L := by
      omega
    rw [htn]
  · rw [if_neg h]
    have h0 : (buf ++ data).toList.length - L = 0 := by omega
    rw [h0, List.drop_zero, asString_toList]

/-- Only the last `L` elements of the left part matter when taking
an `L`-bounded suffix of an append. -/
lemma lastN_append_lastN (L : Nat) (x y : List α) :
    lastN L (lastN L x ++ y) = lastN L (x ++ y) := by
  unfold lastN
  rw [List.drop_append_eq_append_drop, List.drop_append_eq_append_drop,
    List.drop_drop]
  have e1 : (x.length - L) + ((x.drop (x.length - L) ++ y).length - L) =
      (x ++ y).length - L := by
    simp only [List.length_append, List.length_drop]
    omega
  have e2 : ((x.drop (x.length - L) ++ y).length - L) - (x.drop (x.length - L)).length =
      ((x ++ y).length - L) - x.length := by
    simp only [List.length_append, List.length_drop]
    omega
  rw [e1, e2]

lemma scrollbackAfter_eq_suffixOf (L : Nat) (hL : 0 < L) (chunks : List String) :
    scrollbackAfter L chunks = suffixOf L (concatChunks chunks) := by
  induction chunks using List.reverseRecOn with
  | nil =>
    simp only [scrollbackAfter, concatChunks, suffixOf, lastN, List.foldl_nil]
    rw [show ("" : String).toList = [] from rfl, List.drop_nil]
    rfl
  | append_singleton l d ih =>
    have hfold : scrollbackAfter L (l ++ [d]) =
        appendToScrollback L (scrollbackAfter L l) d := by
      simp [scrollbackAfter, List.foldl_append]
    have hcat : concatChunks (l ++ [d]) = concatChunks l ++ d := by
      simp [concatChunks, List.foldl_append]
    rw [hfold, ih, hcat, appendToScrollback_eq_suffixOf L hL]
    unfold suffixOf
    rw [toList_append, toList_asString, lastN_append_lastN, toList_append]

/-- C1.  For every sequence of appends (with a positive configured limit `L`),
the buffer stays within `L`, has length `min L (total appended length)`, and
equals the suffix of that length of the concatenation of all appended
chunks. -/
theorem replay_C1 (L : Nat) (hL : 0 < L) (chunks : List String) :
    (scrollbackAfter L chunks).length ≤ L ∧
    (scrollbackAfter L chunks).length = min L (concatChunks chunks).length ∧
    scrollbackAfter L chunks = suffixOf L (concatChunks chunks) := by
  refine ⟨?_, ?_, scrollbackAfter_eq_suffixOf L hL chunks⟩
  · rw [scrollbackAfter_eq_suffixOf L hL chunks, length_suffixOf]
    omega
  · rw [scrollbackAfter_eq_suffixOf L hL chunks, length_suffixOf]

/-- Witness for C1 at `L = 3` and chunks `["ab", "cde", "f"]` (total length 6,
so the buffer must equal the last 3 characters `"ef"`... evaluated
concretely by `decide`). -/
theorem replay_C1_witness :
    0 < 3 ∧
    ((scrollbackAfter 3 ["ab", "cde", "f"]).length ≤ 3 ∧
     (scrollbackAfter 3 ["ab", "cde", "f"]).length =
       min 3 (concatChunks ["ab", "cde", "f"]).length ∧
     scrollbackAfter 3 ["ab", "cde", "f"] =
       suffixOf 3 (concatChunks ["ab", "cde", "f"])) :=
  ⟨by decide, replay_C1 3 (by decide) ["ab", "cde", "f"]⟩

/-! ### Data model for the server state and its collaborators -/

/-- A metrics snapshot (`costData` in the source): a mapping from
metric-field names to string values, represented as an association list. -/
abbrev CostData := List (String × String)

/-- Field-wise merge, last write wins per field (spec 4.3). -/
def mergeCost (old upd : CostData) : CostData :=
  old.filter (fun p => (upd.lookup p.1).isNone) ++ upd

/-- Modelled from the spec: `OutputAccumulator` of `lib/parser.js` (not among
the sources).  Spec 4.3: it keeps a capped raw-text tail buffer (bounded,
oldest bytes dropped on overflow) and a persistent metrics snapshot. -/
structure OutputAccumulator where
  buffer : String
  lastCostData : Option CostData
deriving DecidableEq

/-- The empty accumulator (fresh at process start). -/
def OutputAccumulator.empty : OutputAccumulator := ⟨"", none⟩

/-- Modelled from the spec: `append` runs metric extraction on the chunk;
if it yields fields, they are merged field-wise into the persistent snapshot
and the full merged snapshot is returned; otherwise `none`.  The raw tail
buffer is capped at `tailCap`.  The extraction function itself lives in the
missing `lib/parser.js` and is taken as a parameter. -/
def OutputAccumulator.append (extract : String → Option CostData) (tailCap : Nat)
    (acc : OutputAccumulator) (chunk : String) : OutputAccumulator × Option CostData :=
  let buf := suffixOf tailCap (acc.buffer ++ chunk)
  match extract chunk with
  | none => ({ acc with buffer := buf }, none)
  | some fields =>
    let merged := mergeCost (acc.lastCostData.getD []) fields
    ({ buffer := buf, lastCostData := some merged }, some merged)

/-- Modelled from the spec: `reset()` clears both the tail buffer and the
snapshot. -/
def OutputAccumulator.reset (_ : OutputAccumulator) : OutputAccumulator :=
  OutputAccumulator.empty

/-- Modelled from the spec: `getLastCostData()` exposes the persistent
snapshot without mutation. -/
def OutputAccumulator.getLastCostData (acc : OutputAccumulator) : Option CostData :=
  acc.lastCostData

/-- Modelled from the spec: the debounced notifier of `lib/notifier.js` (not
among the sources).  Spec 4.4: at most one pending notification; scheduling
replaces it (unless disabled or destroyed); cancel clears it. -/
structure Notifier where
  pending : Option (String × String)
  enabled : Bool
  destroyed : Bool
deriving DecidableEq

/-- Modelled from the spec: schedule replaces any pending notification with
the new title/body; it is a no-op when disabled or destroyed. -/
def Notifier.scheduleNotification (n : Notifier) (title body : String) : Notifier :=
  if n.enabled && !n.destroyed then { n with pending := some (title, body) } else n

/-- Modelled from the spec: cancel clears the pending slot (idempotent). -/
def Notifier.cancelPending (n : Notifier) : Notifier := { n with pending := none }

/-- Modelled from the spec: destroy cancels and forbids future scheduling. -/
def Notifier.destroy (n : Notifier) : Notifier :=
  { n with pending := none, destroyed := true }

/-- The PTY handle (node-pty): liveness, terminal geometry, and the list of
byte strings written to its input stream. -/
structure Pty where
  killed : Bool
  cols : Int
  rows : Int
  written : List String
deriving DecidableEq

/-- Socket.IO messages emitted by the server. -/
inductive Msg where
  | output (data : String)
  | statusUpdate (cost : CostData)
  | ptyExit (exitCode : Int) (signal : Int)
deriving DecidableEq

/-- An observable emission: `broadcast` is `io.emit(...)` (to every
observer), `toObserver` is `socket.emit(...)` (to the one observer whose
event is being handled). -/
inductive Event where
  | broadcast (m : Msg)
  | toObserver (m : Msg)
deriving DecidableEq

/-- The module-level mutable state of `server.js`. -/
structure ServerState where
  ptyProcess : Option Pty
  scrollbackBuffer : String
  lastOutputTime : Nat
  lastUserInputTime : Nat
  waitingForInput : Bool
  shuttingDown : Bool
  notifier : Notifier
  accumulator : OutputAccumulator
deriving DecidableEq

/-- The pure classification functions of the missing `lib/parser.js`,
taken as parameters: the handler theorems below hold for every
instantiation, in particular for the real parser. -/
structure Classifier where
  stripAnsi : String → String
  isPromptWaiting : String → Bool
  isGenerationComplete : String → Bool
  extractMetrics : String → Option CostData

def promptTitle : String := "Claude is waiting for input"

def promptBody : String := "Your Claude Code session needs your attention."

def genTitle : String := "Claude finished generating"

def genBody : String := "Generation complete. Check the output."

def readonlyNotice : String :=
  "\r\n\x1b[31m--- Read-only mode: input disabled ---\x1b[0m\r\n"

def restartBanner : String :=
  "\r\n\x1b[33m--- Restarting Claude... ---\x1b[0m\r\n"

/-- The restart delay of the `setTimeout` in the exit handler (2000 ms). -/
def restartDelayMs : Nat := 2000

/-! ### The event handlers of `server.js` -/

/-- The `ptyProcess.onData` handler: stamp `lastOutputTime`, broadcast the
chunk, append it to the scrollback, feed it to the accumulator (broadcasting
a status update if it yields a snapshot), then run the classification policy
on chunks whose ANSI-stripped trimmed form is longer than 5 characters. -/
def onData (C : Classifier) (limit tailCap now : Nat) (st : ServerState)
    (data : String) : ServerState × List Event :=
  let st1 := { st with
    lastOutputTime := now,
    scrollbackBuffer := appendToScrollback limit st.scrollbackBuffer data }
  let res := OutputAccumulator.append C.extractMetrics tailCap st1.accumulator data
  let st2 := { st1 with accumulator := res.1 }
  let evs := [Event.broadcast (Msg.output data)] ++
    (match res.2 with
     | some cost => [Event.broadcast (Msg.statusUpdate cost)]
     | none => [])
  let clean := jsTrim (C.stripAnsi data)
  if clean.length > 5 then
    if C.isPromptWaiting data then
      ({ st2 with waitingForInput := true,
                  notifier := st2.notifier.scheduleNotification promptTitle promptBody },
       evs)
    else if C.isGenerationComplete data then
      ({ st2 with waitingForInput := true,
                  notifier := st2.notifier.scheduleNotification genTitle genBody },
       evs)
    else if clean.length > 30 then
      ({ st2 with waitingForInput := false,
                  notifier := st2.notifier.cancelPending }, evs)
    else (st2, evs)
  else (st2, evs)

/-- The `socket.on('input')` handler: in read-only mode the observer gets a
rejection notice and nothing else happens; otherwise the input timestamp is
stamped, the waiting flag cleared, any pending notification canceled, and
the bytes written to the PTY if it is alive. -/
def onInput (readonly : Bool) (now : Nat) (st : ServerState) (data : String) :
    ServerState × List Event :=
  if readonly then
    (st, [Event.toObserver (Msg.output readonlyNotice)])
  else
    let st1 := { st with
      lastUserInputTime := now,
      waitingForInput := false,
      notifier := st.notifier.cancelPending }
    match st1.ptyProcess with
    | some p =>
      if p.killed = false then
        ({ st1 with ptyProcess := some { p with written := p.written ++ [data] } }, [])
      else (st1, [])
    | none => (st1, [])

/-- The `socket.on('resize')` handler:
`if (size && size.cols && size.rows && ptyProcess && !ptyProcess.killed)
ptyProcess.resize(Math.max(1, size.cols), Math.max(1, size.rows))`.
JavaScript number truthiness makes `size.cols` pass the guard whenever it is
nonzero (negative values included); `none` models an absent/null size. -/
def onResize (st : ServerState) (size : Option (Int × Int)) : ServerState :=
  match size, st.ptyProcess with
  | some (c, r), some p =>
    if c ≠ 0 ∧ r ≠ 0 ∧ p.killed = false then
      { st with ptyProcess := some { p with cols := max 1 c, rows := max 1 r } }
    else st
  | _, _ => st

/-- The `io.on('connection')` handler's initial sends: the scrollback buffer
as one catch-up payload if non-empty, then the last cost data if present. -/
def onConnection (st : ServerState) : List Event :=
  (if st.scrollbackBuffer.length > 0 then
    [Event.toObserver (Msg.output st.scrollbackBuffer)]
   else []) ++
  (match st.accumulator.getLastCostData with
   | some cost => [Event.toObserver (Msg.statusUpdate cost)]
   | none => [])

/-- Outcome of `spawnPty`: on spawn failure the process logs and calls
`process.exit(1)` (modelled as `fatal 1`); on success the new PTY handle is
installed and the server keeps running. -/
inductive SpawnOutcome where
  | fatal (exitCode : Nat)
  | running (st : ServerState)
deriving DecidableEq

/-- The `spawnPty` function's try/catch around `pty.spawn`: the parameter
`res` is the result of the external spawn call. -/
def spawnPty (res : Except String Pty) (st : ServerState) : SpawnOutcome :=
  match res with
  | Except.error _ => SpawnOutcome.fatal 1
  | Except.ok p => SpawnOutcome.running { st with ptyProcess := some p }

/-- The `ptyProcess.onExit` handler: broadcast the exit event; if shutting
down, return; otherwise clear the scrollback, reset the accumulator, and arm
the 2000 ms restart timer (returned as the `Option Nat` component). -/
def onExit (st : ServerState) (exitCode signal : Int) :
    ServerState × List Event × Option Nat :=
  let evs := [Event.broadcast (Msg.ptyExit exitCode signal)]
  if st.shuttingDown then (st, evs, none)
  else
    ({ st with scrollbackBuffer := "", accumulator := st.accumulator.reset },
     evs, some restartDelayMs)

/-- Outcome of the restart timer callback firing. -/
inductive FireOutcome where
  | skipped (st : ServerState)
  | respawned (out : SpawnOutcome) (evs : List Event)
deriving DecidableEq

/-- The restart timer callback: `if (!shuttingDown) { io.emit('output',
banner); spawnPty(); }`. -/
def restartFire (res : Except String Pty) (st : ServerState) : FireOutcome :=
  if st.shuttingDown then FireOutcome.skipped st
  else FireOutcome.respawned (spawnPty res st)
    [Event.broadcast (Msg.output restartBanner)]

/-- The strings written so far to the PTY's input stream (empty if no PTY). -/
def ptyWritten (st : ServerState) : List String :=
  match st.ptyProcess with
  | some p => p.written
  | none => []

/-- `ptyProcess && !ptyProcess.killed`. -/
def ptyAlive (st : ServerState) : Bool :=
  match st.ptyProcess with
  | some p => !p.killed
  | none => false

/-- The PTY's terminal geometry, if a PTY handle exists. -/
def ptyGeometry (st : ServerState) : Option (Int × Int) :=
  match st.ptyProcess with
  | some p => some (p.cols, p.rows)
  | none => none

/-- Is this event an `output` message to the connecting observer? -/
def isOutputMsg : Event → Bool
  | Event.toObserver (Msg.output _) => true
  | _ => false

/-- Is this event a `status-update` message to the connecting observer? -/
def isStatusMsg : Event → Bool
  | Event.toObserver (Msg.statusUpdate _) => true
  | _ => false

/-! ### Claim theorems -/

/-- C2.  On every exit with shutdown not yet requested, the exit handler
clears the scrollback buffer and resets the accumulator before the restart
timer is armed; the timer has the fixed 2000 ms delay regardless of the
state (there is no restart counter or growing backoff in the state at all);
and when the timer fires, a re-spawn happens if and only if shutdown has
still not been requested at that moment. -/
theorem supervisor_C2 (st : ServerState) (exitCode signal : Int)
    (h : st.shuttingDown = false) :
    (onExit st exitCode signal).1.scrollbackBuffer = "" ∧
    (onExit st exitCode signal).1.accumulator = OutputAccumulator.empty ∧
    (onExit st exitCode signal).2.2 = some restartDelayMs ∧
    (∀ (st2 : ServerState) (res : Except String Pty),
      (∃ out evs, restartFire res st2 = FireOutcome.respawned out evs) ↔
        st2.shuttingDown = false) := by
  refine ⟨?_, ?_, ?_, ?_⟩
  · simp [onExit, h]
  · simp [onExit, h, OutputAccumulator.reset]
  · simp [onExit, h]
  · intro st2 res
    by_cases hc : st2.shuttingDown <;> simp [restartFire, hc]

def stC2 : ServerState :=
  ⟨some ⟨false, 80, 30, []⟩, "old output", 3, 4, true, false,
    ⟨some ("t", "b"), true, false⟩, ⟨"tail", some [("sessionCost", "1.00")]⟩⟩

/-- Witness for C2 at a concrete non-shutting-down state. -/
theorem supervisor_C2_witness :
    stC2.shuttingDown = false ∧
    ((onExit stC2 0 0).1.scrollbackBuffer = "" ∧
     (onExit stC2 0 0).1.accumulator = OutputAccumulator.empty ∧
     (onExit stC2 0 0).2.2 = some restartDelayMs ∧
     (∀ (st2 : ServerState) (res : Except String Pty),
       (∃ out evs, restartFire res st2 = FireOutcome.respawned out evs) ↔
         st2.shuttingDown = false)) :=
  ⟨rfl, supervisor_C2 stC2 0 0 rfl⟩

/-- C10.  If shutdown was already requested when the process exits, the exit
handler only broadcasts the exit event: the state (scrollback buffer and
accumulator included) is unchanged and no restart timer is armed. -/
theorem supervisor_C10 (st : ServerState) (exitCode signal : Int)
    (h : st.shuttingDown = true) :
    onExit st exitCode signal =
      (st, [Event.broadcast (Msg.ptyExit exitCode signal)], none) := by
  simp [onExit, h]

def stC10 : ServerState :=
  ⟨some ⟨false, 80, 30, []⟩, "kept output", 3, 4, true, true,
    ⟨some ("t", "b"), true, false⟩, ⟨"tail", some [("sessionCost", "1.00")]⟩⟩

/-- Witness for C10 at a concrete shutting-down state. -/
theorem supervisor_C10_witness :
    stC10.shuttingDown = true ∧
    onExit stC10 1 9 = (stC10, [Event.broadcast (Msg.ptyExit 1 9)], none) :=
  ⟨rfl, supervisor_C10 stC10 1 9 rfl⟩

/-- C8.  A failed spawn is fatal: the program terminates with exit code 1
and the supervisor never reaches the running state (so no restart loop and
no retry can follow). -/
theorem supervisor_C8 (msg : String) (st : ServerState) :
    spawnPty (Except.error msg) st = SpawnOutcome.fatal 1 ∧
    ∀ st2 : ServerState, spawnPty (Except.error msg) st ≠ SpawnOutcome.running st2 := by
  refine ⟨rfl, ?_⟩
  intro st2 hEq
  simp [spawnPty] at hEq

/-- C3.  A chunk whose ANSI-stripped trimmed length is at most 5 skips
classification entirely: the waiting flag and the notifier are untouched,
while the chunk is still broadcast, appended to the scrollback, and fed to
the accumulator. -/
theorem classifier_C3 (C : Classifier) (limit tailCap now : Nat)
    (st : ServerState) (data : String)
    (h : (jsTrim (C.stripAnsi data)).length ≤ 5) :
    (onData C limit tailCap now st data).1.waitingForInput = st.waitingForInput ∧
    (onData C limit tailCap now st data).1.notifier = st.notifier ∧
    (onData C limit tailCap now st data).1.scrollbackBuffer =
      appendToScrollback limit st.scrollbackBuffer data ∧
    (onData C limit tailCap now st data).1.accumulator =
      (OutputAccumulator.append C.extractMetrics tailCap st.accumulator data).1 ∧
    (onData C limit tailCap now st data).2.head? =
      some (Event.broadcast (Msg.output data)) := by
  have hn : ¬((jsTrim (C.stripAnsi data)).length > 5) := by omega
  refine ⟨?_, ?_, ?_, ?_, ?_⟩ <;> simp [onData, hn]

def cC3 : Classifier :=
  ⟨fun s => s, fun _ => true, fun _ => false, fun _ => none⟩

def stC3 : ServerState :=
  ⟨some ⟨false, 80, 30, []⟩, "hist", 0, 0, true, false,
    ⟨some ("t", "b"), true, false⟩, ⟨"", none⟩⟩

/-- Witness for C3 on the concrete 3-character chunk `"abc"` (which the
witness classifier would flag as prompt-waiting, showing the skip is what
protects the state). -/
theorem classifier_C3_witness :
    (jsTrim (cC3.stripAnsi "abc")).length ≤ 5 ∧
    ((onData cC3 50000 5000 7 stC3 "abc").1.waitingForInput = stC3.waitingForInput ∧
     (onData cC3 50000 5000 7 stC3 "abc").1.notifier = stC3.notifier ∧
     (onData cC3 50000 5000 7 stC3 "abc").1.scrollbackBuffer =
       appendToScrollback 50000 stC3.scrollbackBuffer "abc" ∧
     (onData cC3 50000 5000 7 stC3 "abc").1.accumulator =
       (OutputAccumulator.append cC3.extractMetrics 5000 stC3.accumulator "abc").1 ∧
     (onData cC3 50000 5000 7 stC3 "abc").2.head? =
       some (Event.broadcast (Msg.output "abc"))) :=
  ⟨by decide, classifier_C3 cC3 50000 5000 7 stC3 "abc" (by decide)⟩

/-- C4.  A chunk whose ANSI-stripped trimmed length exceeds 30 and which
triggers neither classifier clears the waiting flag and cancels any pending
notification. -/
theorem classifier_C4 (C : Classifier) (limit tailCap now : Nat)
    (st : ServerState) (data : String)
    (h30 : (jsTrim (C.stripAnsi data)).length > 30)
    (hp : C.isPromptWaiting data = false)
    (hg : C.isGenerationComplete data = false) :
    (onData C limit tailCap now st data).1.waitingForInput = false ∧
    (onData C limit tailCap now st data).1.notifier.pending = none := by
  have h5 : (jsTrim (C.stripAnsi data)).length > 5 := by omega
  constructor <;> simp [onData, h5, h30, hp, hg, Notifier.cancelPending]

def cC4 : Classifier :=
  ⟨fun s => s, fun _ => false, fun _ => false, fun _ => none⟩

def stC4 : ServerState :=
  ⟨some ⟨false, 80, 30, []⟩, "hist", 0, 0, true, false,
    ⟨some ("t", "b"), true, false⟩, ⟨"", none⟩⟩

/-- Witness for C4 on a concrete 32-character chunk. -/
theorem classifier_C4_witness :
    (jsTrim (cC4.stripAnsi "0123456789abcdefghij0123456789ab")).length > 30 ∧
    cC4.isPromptWaiting "0123456789abcdefghij0123456789ab" = false ∧
    cC4.isGenerationComplete "0123456789abcdefghij0123456789ab" = false ∧
    ((onData cC4 50000 5000 7 stC4 "0123456789abcdefghij0123456789ab").1.waitingForInput
       = false ∧
     (onData cC4 50000 5000 7 stC4 "0123456789abcdefghij0123456789ab").1.notifier.pending
       = none) :=
  ⟨by decide, rfl, rfl,
    classifier_C4 cC4 50000 5000 7 stC4 "0123456789abcdefghij0123456789ab"
      (by decide) rfl rfl⟩

/-- C5.  A newly attached observer receives the entire scrollback as a
single catch-up output payload exactly when the buffer is non-empty, and the
last metrics snapshot as a status update exactly when it is non-null. -/
theorem hub_C5 (st : ServerState) :
    ((onConnection st).filter isOutputMsg =
      if st.scrollbackBuffer.length > 0 then
        [Event.toObserver (Msg.output st.scrollbackBuffer)]
      else []) ∧
    ((onConnection st).filter isStatusMsg =
      match st.accumulator.getLastCostData with
      | some cost => [Event.toObserver (Msg.statusUpdate cost)]
      | none => []) := by
  constructor <;>
    (by_cases h : st.scrollbackBuffer.length > 0 <;>
      cases hc : st.accumulator.getLastCostData <;>
        simp [onConnection, isOutputMsg, isStatusMsg, h, hc])

/-- C6.  An observer input event writes the bytes to the PTY exactly when
read-only mode is off and the PTY is alive, and produces the rejection
notice to the observer exactly when read-only mode is on. -/
theorem hub_C6 (readonly : Bool) (now : Nat) (st : ServerState) (data : String) :
    (ptyWritten (onInput readonly now st data).1 =
      if readonly = false ∧ ptyAlive st = true then ptyWritten st ++ [data]
      else ptyWritten st) ∧
    ((onInput readonly now st data).2 =
      if readonly = true then [Event.toObserver (Msg.output readonlyNotice)]
      else []) := by
  cases readonly
  · cases hp : st.ptyProcess with
    | none => simp [onInput, ptyWritten, ptyAlive, hp]
    | some p =>
      cases hk : p.killed <;> simp [onInput, ptyWritten, ptyAlive, hp, hk]
  · simp [onInput, ptyWritten, ptyAlive]

/-- C9.  Every input event accepted outside read-only mode clears the
waiting-for-input flag and cancels any pending notification as part of the
same handler step, regardless of whether the PTY is alive. -/
theorem hub_C9 (now : Nat) (st : ServerState) (data : String) :
    (onInput false now st data).1.waitingForInput = false ∧
    (onInput false now st data).1.notifier.pending = none := by
  cases hp : st.ptyProcess with
  | none => simp [onInput, hp, Notifier.cancelPending]
  | some p => cases hk : p.killed <;> simp [onInput, hp, hk, Notifier.cancelPending]

def stC7 : ServerState :=
  ⟨some ⟨false, 80, 30, []⟩, "", 0, 0, false, false,
    ⟨none, true, false⟩, ⟨"", none⟩⟩

/-- C7 counterexample.  The claim says non-positive geometry is ignored, but
a resize to cols = -5, rows = 24 on a live 80x30 PTY is not ignored: the
JavaScript truthiness guard only filters out zero, and `Math.max(1, -5)`
clamps the negative value, so the geometry becomes (1, 24). -/
theorem hub_C7_counterexample :
    ((-5 : Int) ≤ 0) ∧
    ptyGeometry (onResize stC7 (some (-5, 24))) ≠ ptyGeometry stC7 ∧
    ptyGeometry (onResize stC7 (some (-5, 24))) = some (1, 24) := by
  decide

/-- C7 amended.  A resize event with zero cols or zero rows is ignored
(geometry unchanged); a resize event with nonzero cols and rows on a live
PTY is applied with each dimension clamped below at 1 — so negative
dimensions are clamped and applied, not ignored. -/
theorem hub_C7_amended (st : ServerState) (c r : Int) (h : c = 0 ∨ r = 0) :
    onResize st (some (c, r)) = st ∧
    (∀ (c2 r2 : Int) (p : Pty), st.ptyProcess = some p → p.killed = false →
      c2 ≠ 0 → r2 ≠ 0 →
      (onResize st (some (c2, r2))).ptyProcess =
        some { p with cols := max 1 c2, rows := max 1 r2 }) := by
  constructor
  · cases hp : st.ptyProcess with
    | none => simp [onResize, hp]
    | some p => rcases h with h | h <;> simp [onResize, hp, h]
  · intro c2 r2 p hp hk hc hr
    simp [onResize, hp, hc, hr, hk]

/-- Witness for the amended C7 at cols = 0, rows = 24. -/
theorem hub_C7_amended_witness :
    ((0 : Int) = 0 ∨ (24 : Int) = 0) ∧
    (onResize stC7 (some (0, 24)) = stC7 ∧
     (∀ (c2 r2 : Int) (p : Pty), stC7.ptyProcess = some p → p.killed = false →
       c2 ≠ 0 → r2 ≠ 0 →
       (onResize stC7 (some (c2, r2))).ptyProcess =
         some { p with cols := max 1 c2, rows := max 1 r2 })) :=
  ⟨Or.inl rfl, hub_C7_amended stC7 0 24 (Or.inl rfl)⟩

end ClaudeRemote
